import Mathlib

/-!
Verification of the trend-analysis engine of the stock-analysis-chatbot
repository (`src/tools/trend.py`).

The engine `trend_analysis(symbol, period)` dispatches on `period` to one of
three bar fetchers, parses the fetched JSON payload, guards on bar count, and
computes a battery of technical indicators (percent change, EMA 9/21
crossover, MACD, RSI(14), Bollinger bands, volume ratio, swing levels), a
composite integer score, and a verdict/confidence pair.

Modelling conventions:
* Prices and volumes are embedded as exact rationals (`ℚ`).  The Python code
  computes with IEEE doubles; all claims settled here concern the algorithm's
  structure (branches taken, formulas used, output shape), which the rational
  idealisation captures.  Division by zero yields `0` in `ℚ` where numpy
  yields `inf`/`nan` without raising; where that distinction matters it is
  noted at the theorem.
* `pandas.Series.rolling(w).mean()/.std()` at `.iloc[-1]` is the mean /
  sample standard deviation (ddof = 1) of the last `w` entries.  Below the
  window size pandas yields `NaN`; the engine's `len(bars) < 30` guard makes
  that unreachable, and the embedding simply averages whatever entries exist.
* The square root inside the rolling standard deviation is irrational in
  general, so the embedding is parametric in a function `sqrt : ℚ → ℚ`;
  theorems that need facts about it take them as hypotheses (only
  `sqrt 0 = 0` is ever needed).
* The bar fetchers perform network I/O; they are modelled as oracle
  parameters returning an already-parsed payload (`AdapterPayload`): a flag
  for the presence of an `"error"` key plus the payload's bar-list fields.
-/

namespace Trend

/-- One OHLCV bar, as produced by the fetchers in `src/tools/trend.py`
(fields `time`, `open`, `high`, `low`, `close`, `volume`).  The engine reads
only `high`, `low`, `close`, `volume`. -/
structure Bar where
  time : String
  open_ : ℚ
  high : ℚ
  low : ℚ
  close : ℚ
  volume : ℚ
deriving DecidableEq, Repr

/-- A parsed fetcher payload: whether the JSON object contains an `"error"`
key, and its bar-list fields keyed by name (`data.get(key, [])` is an
association-list lookup defaulting to `[]`). -/
structure AdapterPayload where
  hasError : Bool
  fields : List (String × List Bar)
deriving DecidableEq, Repr

/-- Extract the close column (`df["close"].values`). -/
def closes (bars : List Bar) : List ℚ := bars.map Bar.close

/-- Extract the volume column (`df["volume"].values`). -/
def volumes (bars : List Bar) : List ℚ := bars.map Bar.volume

/-- Extract the high column (`df["high"].values`). -/
def highs (bars : List Bar) : List ℚ := bars.map Bar.high

/-- Extract the low column (`df["low"].values`). -/
def lows (bars : List Bar) : List ℚ := bars.map Bar.low

/-- Python `x[-1]` (last element; the engine only applies it to arrays its
`len(bars) < 30` guard has made nonempty). -/
def lastD (xs : List ℚ) : ℚ := xs.getLastD 0

/-- Python `x[0]`. -/
def headD0 (xs : List ℚ) : ℚ := xs.headD 0

/-- Python `x.iloc[-2]` (second-to-last element). -/
def penultD (xs : List ℚ) : ℚ := xs.dropLast.getLastD 0

/-- The last `n` entries of a list (the window seen by
`rolling(n)....iloc[-1]`). -/
def lastN (n : ℕ) (xs : List ℚ) : List ℚ := xs.drop (xs.length - n)

/-- Source: `pandas.Series.rolling(w).mean().iloc[-1]`: mean of the last `w`
entries. -/
def rollMeanLast (w : ℕ) (xs : List ℚ) : ℚ := (lastN w xs).sum / w

/-- Step 1 of the engine: `pct_change = (close[-1] - close[0]) / close[0] * 100`
(trend.py line 219).  Unguarded in the source: for `close[0] = 0` numpy
produces `inf`/`nan` without raising, `ℚ` produces `0`; no branch of the
engine can raise here under either semantics. -/
def pct_change (c : List ℚ) : ℚ := (lastD c - headD0 c) / headD0 c * 100

/-- The `ewm(span=s)` smoothing factor `α = 2/(span+1)`. -/
def ewmAlpha (span : ℕ) : ℚ := 2 / ((span : ℚ) + 1)

/-- Source: `pd.Series(xs).ewm(span, adjust=False).mean().iloc[-1]`: the recurrence
`y₀ = x₀`, `yₜ = (1-α)·yₜ₋₁ + α·xₜ`, seeded by the first value, no bias
adjustment.  Used for `ema9`/`ema21` (trend.py lines 222-223). -/
def emaNoAdjLast (span : ℕ) (xs : List ℚ) : ℚ :=
  match xs with
  | [] => 0
  | x :: t => t.foldl (fun acc y => (1 - ewmAlpha span) * acc + ewmAlpha span * y) x

/-- Source: `ema9` of the close array (trend.py line 222). -/
def ema9 (c : List ℚ) : ℚ := emaNoAdjLast 9 c

/-- Source: `ema21` of the close array (trend.py line 223). -/
def ema21 (c : List ℚ) : ℚ := emaNoAdjLast 21 c

/-- Source: `ema_trend = "bullish" if ema9 > ema21 else "bearish"` (line 224). -/
def ema_trend (c : List ℚ) : String :=
  if ema9 c > ema21 c then "bullish" else "bearish"

/-- Worker for the bias-adjusted EWM mean. `pd.Series(xs).ewm(span).mean()`
(the pandas default `adjust=True`) computes
`yₜ = (Σ_{i≤t} (1-α)^i·xₜ₋ᵢ) / (Σ_{i≤t} (1-α)^i)`; this recurrence carries
the running numerator and denominator (`ewmAdj_getD` below proves it
equal to the weighted-sum formula). -/
def ewmAdjAux (a : ℚ) (num den : ℚ) : List ℚ → List ℚ
  | [] => []
  | x :: t =>
      ((1 - a) * num + x) / ((1 - a) * den + 1)
        :: ewmAdjAux a ((1 - a) * num + x) ((1 - a) * den + 1) t

/-- Source: `pd.Series(xs).ewm(span=s).mean()` with the pandas default
`adjust=True` — this is what the MACD block (trend.py lines 227-230) uses,
in contrast to the `adjust=False` EMAs of lines 222-223. -/
def ewmAdj (span : ℕ) (xs : List ℚ) : List ℚ := ewmAdjAux (ewmAlpha span) 0 0 xs

/-- The bias-adjusted EWM mean as the spec would state it: the weighted mean
of the first `t+1` values with weights `(1-α)^i` on the value `i` steps
back.  This is the pandas `adjust=True` formula, stated directly for
comparison with the recurrence `ewmAdj` (`ewmAdj_getD` proves them
equal). -/
def ewmWeighted (span : ℕ) (xs : List ℚ) (t : ℕ) : ℚ :=
  ((Finset.range (t+1)).sum fun i => (1 - ewmAlpha span)^i * xs.getD (t - i) 0) /
  ((Finset.range (t+1)).sum fun i => (1 - ewmAlpha span)^i)

/-- Source: `macd_line = exp1 - exp2` where `exp1 = ewm(span=12).mean()` and
`exp2 = ewm(span=26).mean()` of the closes (trend.py lines 227-229). -/
def macd_line (c : List ℚ) : List ℚ :=
  (ewmAdj 12 c).zipWith (· - ·) (ewmAdj 26 c)

/-- Source: `signal_line = macd_line.ewm(span=9).mean()` (trend.py line 230). -/
def signal_line (c : List ℚ) : List ℚ := ewmAdj 9 (macd_line c)

/-- Source: `macd_hist = macd_line - signal_line` (trend.py line 231). -/
def macd_hist (c : List ℚ) : List ℚ :=
  (macd_line c).zipWith (· - ·) (signal_line c)

/-- Source: `macd_signal`: bullish only if the MACD line is above its signal AND the
last histogram value exceeds the previous one (trend.py lines 232-237). -/
def macd_signal (c : List ℚ) : String :=
  if lastD (macd_line c) > lastD (signal_line c) ∧
      lastD (macd_hist c) > penultD (macd_hist c)
  then "bullish" else "bearish"

/-- Source: `delta = np.diff(close)`: consecutive differences `close[i+1]-close[i]`. -/
def diffs (c : List ℚ) : List ℚ := c.tail.zipWith (· - ·) c

/-- Source: `gain = np.where(delta > 0, delta, 0)` (trend.py line 241). -/
def gains (c : List ℚ) : List ℚ := (diffs c).map (fun d => if d > 0 then d else 0)

/-- Source: `loss = np.where(delta < 0, -delta, 0)` (trend.py line 242). -/
def losses (c : List ℚ) : List ℚ := (diffs c).map (fun d => if d < 0 then -d else 0)

/-- Source: `avg_gain = pd.Series(gain).rolling(14).mean().iloc[-1]` (line 243). -/
def avg_gain (c : List ℚ) : ℚ := rollMeanLast 14 (gains c)

/-- Source: `avg_loss = pd.Series(loss).rolling(14).mean().iloc[-1]` (line 244). -/
def avg_loss (c : List ℚ) : ℚ := rollMeanLast 14 (losses c)

/-- Source: `rs = avg_gain / avg_loss if avg_loss != 0 else 100` (line 245). -/
def rs (c : List ℚ) : ℚ :=
  if avg_loss c ≠ 0 then avg_gain c / avg_loss c else 100

/-- Source: `rsi = 100 - (100 / (1 + rs)) if rs > 0 else (0 if avg_gain == 0 else 100)`
(trend.py line 246). -/
def rsi (c : List ℚ) : ℚ :=
  if rs c > 0 then 100 - 100 / (1 + rs c)
  else if avg_gain c = 0 then 0 else 100

/-- Source: `sma20 = pd.Series(close).rolling(20).mean().iloc[-1]` (line 249). -/
def sma20 (c : List ℚ) : ℚ := rollMeanLast 20 c

/-- The sample variance (ddof = 1) of the last 20 closes: the square of
`pd.Series(close).rolling(20).std().iloc[-1]` (line 250). -/
def var20 (c : List ℚ) : ℚ :=
  ((lastN 20 c).map (fun x => (x - sma20 c) ^ 2)).sum / 19

/-- Source: `std20`: the rolling sample standard deviation, `sqrt` abstracted. -/
def std20 (sqrt : ℚ → ℚ) (c : List ℚ) : ℚ := sqrt (var20 c)

/-- Source: `upper = sma20 + 2 * std20` (trend.py line 251). -/
def upperBand (sqrt : ℚ → ℚ) (c : List ℚ) : ℚ := sma20 c + 2 * std20 sqrt c

/-- Source: `lower = sma20 - 2 * std20` (trend.py line 252). -/
def lowerBand (sqrt : ℚ → ℚ) (c : List ℚ) : ℚ := sma20 c - 2 * std20 sqrt c

/-- Source: `bb_width = (upper - lower) / sma20` (trend.py line 253). -/
def bb_width (sqrt : ℚ → ℚ) (c : List ℚ) : ℚ :=
  (upperBand sqrt c - lowerBand sqrt c) / sma20 c

/-- Source: `bb_position = (close[-1] - lower) / (upper - lower) if upper != lower
else 0.5` (trend.py line 254). -/
def bb_position (sqrt : ℚ → ℚ) (c : List ℚ) : ℚ :=
  if upperBand sqrt c ≠ lowerBand sqrt c then
    (lastD c - lowerBand sqrt c) / (upperBand sqrt c - lowerBand sqrt c)
  else 1/2

/-- Source: `bb_squeeze = bb_width < 0.08` (trend.py line 255). -/
def bb_squeeze (sqrt : ℚ → ℚ) (c : List ℚ) : Bool :=
  decide (bb_width sqrt c < 2/25)

/-- Source: `vol_sma = pd.Series(volume).rolling(20).mean().iloc[-1]` (line 258). -/
def vol_sma (v : List ℚ) : ℚ := rollMeanLast 20 v

/-- Source: `vol_ratio = volume[-1] / vol_sma if vol_sma > 0 else 1` (line 259). -/
def vol_ratio (v : List ℚ) : ℚ :=
  if vol_sma v > 0 then lastD v / vol_sma v else 1

/-- Python `max(xs)` over a list the engine guarantees is nonempty. -/
def maxD : List ℚ → ℚ
  | [] => 0
  | x :: t => t.foldl max x

/-- Python `min(xs)` over a list the engine guarantees is nonempty. -/
def minD : List ℚ → ℚ
  | [] => 0
  | x :: t => t.foldl min x

/-- Source: `resistance = max(highs[-20:])` (trend.py line 264). -/
def resistance (h : List ℚ) : ℚ := maxD (lastN 20 h)

/-- Source: `support = min(lows[-20:])` (trend.py line 265). -/
def support (l : List ℚ) : ℚ := minD (lastN 20 l)

/-- The sequential score accumulation of trend.py lines 268-274: `score = 50`
followed by six independent `score += ...` adjustments. -/
def scoreRaw (c v : List ℚ) : ℤ :=
  let score : ℤ := 50
  let score := score + (if pct_change c > 3 then 15 else if pct_change c < -3 then -15 else 0)
  let score := score + (if ema_trend c = "bullish" then 15 else -15)
  let score := score + (if macd_signal c = "bullish" then 15 else -15)
  let score := score + (if rsi c > 55 then 10 else if rsi c < 45 then -10 else 0)
  let score := score + (if lastD c > sma20 c then 10 else -10)
  let score := score + (if vol_ratio v > 13/10 then 8 else -8)
  score

/-- Source: `score = max(0, min(100, score))` (trend.py line 275). -/
def score (c v : List ℚ) : ℤ := max 0 (min 100 (scoreRaw c v))

/-- The verdict/confidence threshold chain of trend.py lines 278-292,
evaluated high-to-low, first match wins. -/
def verdictOf (s : ℤ) : String × String :=
  if s ≥ 75 then ("VERY BULLISH", "High")
  else if s ≥ 60 then ("BULLISH", "Moderate-High")
  else if s ≥ 40 then ("NEUTRAL", "Low")
  else if s ≥ 25 then ("BEARISH", "Moderate-High")
  else ("VERY BEARISH", "High")

/-- Python `round(q, n)`: round to `n` decimal places, ties to even
(banker's rounding), idealised over exact rationals. -/
def pyRound (q : ℚ) (n : ℕ) : ℚ :=
  let s : ℚ := q * 10 ^ n
  let f : ℤ := ⌊s⌋
  let r : ℚ := s - f
  let k : ℤ :=
    if r < 1/2 then f
    else if r > 1/2 then f + 1
    else if f % 2 = 0 then f else f + 1
  (k : ℚ) / 10 ^ n

/-- The `key_signals` sub-record of the success output (trend.py
lines 302-315). -/
structure KeySignals where
  ema_9_21 : String
  macd : String
  rsi_14 : ℚ
  bollinger_position : String
  bb_squeeze : String
  volume_spike : Bool
  near_resistance : Bool
  near_support : Bool
deriving DecidableEq, Repr

/-- The `levels` sub-record of the success output (trend.py lines 316-320). -/
structure Levels where
  resistance : ℚ
  support : ℚ
  sma_20 : ℚ
deriving DecidableEq, Repr

/-- The success output record (trend.py lines 294-321). -/
structure TrendVerdict where
  symbol : String
  analysis_period : String
  current_price : ℚ
  price_change_percent : ℚ
  trend_verdict : String
  confidence : String
  trend_strength_score : ℤ
  key_signals : KeySignals
  levels : Levels
deriving DecidableEq, Repr

/-- The four shapes a `trend_analysis` call can return: the bare config-error
record of line 198 (note: no symbol field), the re-serialised fetcher payload
of line 203, the low-bar-count warning of lines 208-210, or the success
record. -/
inductive TrendResult where
  | configError (msg : String)
  | propagated (payload : AdapterPayload)
  | lowBar (symbol warning : String)
  | ok (v : TrendVerdict)
deriving DecidableEq, Repr

/-- Whether a result is the success record. -/
def TrendResult.isOk : TrendResult → Bool
  | .ok _ => true
  | _ => false

/-- Assembly of the success record from the indicators (trend.py
lines 294-321). -/
def mkVerdict (sqrt : ℚ → ℚ) (symbol period : String) (bars : List Bar) :
    TrendVerdict :=
  let c := closes bars
  let v := volumes bars
  { symbol := symbol
    analysis_period := "Last " ++ period
    current_price := pyRound (lastD c) 4
    price_change_percent := pyRound (pct_change c) 2
    trend_verdict := (verdictOf (score c v)).1
    confidence := (verdictOf (score c v)).2
    trend_strength_score := score c v
    key_signals :=
      { ema_9_21 := (ema_trend c).toUpper
        macd := (macd_signal c).toUpper
        rsi_14 := pyRound (rsi c) 2
        bollinger_position :=
          if bb_position sqrt c > 4/5 then "near top"
          else if bb_position sqrt c < 1/5 then "near bottom"
          else "middle"
        bb_squeeze := if bb_squeeze sqrt c then "YES" else "NO"
        volume_spike := decide (vol_ratio v > 3/2)
        near_resistance :=
          decide (|lastD c - resistance (highs bars)| / lastD c < 1/100)
        near_support :=
          decide (|lastD c - support (lows bars)| / lastD c < 1/100) }
    levels :=
      { resistance := pyRound (resistance (highs bars)) 4
        support := pyRound (support (lows bars)) 4
        sma_20 := pyRound (sma20 c) 4 } }

/-- The engine stage of `trend_analysis` after the payload has been parsed
and the bar list extracted (trend.py lines 207-323): the bar-count guard,
then the indicator pipeline and record assembly. -/
def analyzeBars (sqrt : ℚ → ℚ) (symbol period : String) (bars : List Bar) :
    TrendResult :=
  if bars.length < 30 then .lowBar symbol "Low bar count, accuracy reduced"
  else .ok (mkVerdict sqrt symbol period bars)

/-- The config-error message of trend.py line 198. -/
def periodMsg : String := "period must be \x277d\x27, \x2730d\x27, or \x27200d\x27"

/-- Handling of one fetched payload (trend.py lines 201-210): propagate a
payload carrying an `"error"` key verbatim, otherwise run the engine on
`data.get(key, [])`. -/
def runFetched (sqrt : ℚ → ℚ) (symbol period : String)
    (payload : AdapterPayload) (key : String) : TrendResult :=
  if payload.hasError then .propagated payload
  else analyzeBars sqrt symbol period ((payload.fields.lookup key).getD [])

/-- The full `trend_analysis` tool (trend.py lines 176-326): upper-case the
symbol, dispatch on `period` to a fetcher/key pair, and hand the payload to
`runFetched`.  The three fetchers are oracle parameters. -/
def trend_analysis (sqrt : ℚ → ℚ)
    (fetch7d fetch30d fetch200d : String → AdapterPayload)
    (symbol period : String) : TrendResult :=
  let symbolU := symbol.toUpper
  if period = "7d" then
    runFetched sqrt symbolU period (fetch7d symbolU) "hourly_ohlcv_last_week"
  else if period = "30d" then
    runFetched sqrt symbolU period (fetch30d symbolU) "hourly_ohlcv_1month"
  else if period = "200d" then
    runFetched sqrt symbolU period (fetch200d symbolU) "daily_ohlcv_200d"
  else .configError periodMsg

/-! ### Concrete inputs used by witnesses and counterexamples -/

/-- A bar with equal open/high/low/close. -/
def mkBar (c : ℚ) (v : ℚ) : Bar := ⟨"t", c, c, c, c, v⟩

/-- Thirty identical bars (constant price, constant volume). -/
def constBars : List Bar := List.replicate 30 (mkBar 1 1)

/-- Thirty bars with strictly rising closes 1, 2, …, 30. -/
def risingBars : List Bar :=
  [mkBar 1 1, mkBar 2 1, mkBar 3 1, mkBar 4 1, mkBar 5 1, mkBar 6 1, mkBar 7 1, mkBar 8 1, mkBar 9 1, mkBar 10 1, mkBar 11 1, mkBar 12 1, mkBar 13 1, mkBar 14 1, mkBar 15 1, mkBar 16 1, mkBar 17 1, mkBar 18 1, mkBar 19 1, mkBar 20 1, mkBar 21 1, mkBar 22 1, mkBar 23 1, mkBar 24 1, mkBar 25 1, mkBar 26 1, mkBar 27 1, mkBar 28 1, mkBar 29 1, mkBar 30 1]

/-- Thirty bars whose first close is zero. -/
def zeroStartBars : List Bar :=
  mkBar 0 1 :: (List.range 29).map (fun i => mkBar ((i : ℚ) + 1) 1)

/-- A fetcher oracle returning an error-free payload with no bar-list
fields. -/
def emptyFetch : String → AdapterPayload := fun _ => ⟨false, []⟩

/-- The `rsi_14` field of a success record, `none` on the diagnostic
shapes. -/
def rsiField : TrendResult → Option ℚ
  | .ok v => some v.key_signals.rsi_14
  | _ => none

/-! ### Projection helpers for the success record -/

theorem mkVerdict_trend_strength_score (sq : ℚ → ℚ) (s p : String)
    (bars : List Bar) :
    (mkVerdict sq s p bars).trend_strength_score =
      score (closes bars) (volumes bars) := rfl

theorem mkVerdict_bollinger_position (sq : ℚ → ℚ) (s p : String)
    (bars : List Bar) :
    (mkVerdict sq s p bars).key_signals.bollinger_position =
      (if bb_position sq (closes bars) > 4/5 then "near top"
       else if bb_position sq (closes bars) < 1/5 then "near bottom"
       else "middle") := rfl

theorem mkVerdict_bb_squeeze (sq : ℚ → ℚ) (s p : String) (bars : List Bar) :
    (mkVerdict sq s p bars).key_signals.bb_squeeze =
      (if bb_squeeze sq (closes bars) then "YES" else "NO") := rfl

theorem mkVerdict_rsi_14 (sq : ℚ → ℚ) (s p : String) (bars : List Bar) :
    (mkVerdict sq s p bars).key_signals.rsi_14 =
      pyRound (rsi (closes bars)) 2 := rfl

/-! ### Supporting lemmas -/

lemma lastN_map (f : ℚ → ℚ) (n : ℕ) (l : List ℚ) :
    lastN n (l.map f) = (lastN n l).map f := by
  simp [lastN, List.map_drop]

lemma avg_loss_zero (c : List ℚ) (h : ∀ d ∈ lastN 14 (diffs c), 0 ≤ d) :
    avg_loss c = 0 := by
  unfold avg_loss rollMeanLast losses
  rw [lastN_map]
  have hz : ∀ x ∈ (lastN 14 (diffs c)).map (fun d => if d < 0 then -d else 0), x = 0 := by
    intro x hx
    rcases List.mem_map.mp hx with ⟨d, hd, rfl⟩
    rw [if_neg (not_lt.mpr (h d hd))]
  rw [List.sum_eq_zero hz, zero_div]

lemma avg_gain_pos (c : List ℚ)
    (h1 : ∃ d ∈ lastN 14 (diffs c), 0 < d) : 0 < avg_gain c := by
  unfold avg_gain rollMeanLast gains
  rw [lastN_map]
  obtain ⟨d, hd, hdpos⟩ := h1
  have hnn : ∀ x ∈ (lastN 14 (diffs c)).map (fun d => if d > 0 then d else 0), 0 ≤ x := by
    intro x hx
    rcases List.mem_map.mp hx with ⟨e, he, rfl⟩
    split <;> simp [le_of_lt, *]
  have hmem : d ∈ (lastN 14 (diffs c)).map (fun d => if d > 0 then d else 0) := by
    have h2 := List.mem_map_of_mem (fun e => if e > 0 then e else 0) hd
    simpa [hdpos] using h2
  have hle := List.single_le_sum hnn d hmem
  have hsum : 0 < ((lastN 14 (diffs c)).map (fun d => if d > 0 then d else 0)).sum :=
    lt_of_lt_of_le hdpos hle
  positivity

lemma rsi_of_avg_loss_zero (c : List ℚ) (h : avg_loss c = 0) :
    rsi c = 10000/101 := by
  unfold rsi rs
  rw [h]
  norm_num

lemma length_ewmAdjAux (a : ℚ) (xs : List ℚ) :
    ∀ num den : ℚ, (ewmAdjAux a num den xs).length = xs.length := by
  induction xs with
  | nil => intro num den; rfl
  | cons x t ih => intro num den; simp [ewmAdjAux, ih]

lemma length_ewmAdj (span : ℕ) (xs : List ℚ) :
    (ewmAdj span xs).length = xs.length := length_ewmAdjAux _ _ _ _

lemma ewmAdjAux_getD (a : ℚ) (xs : List ℚ) :
    ∀ (num den : ℚ) (j : ℕ), j < xs.length →
    (ewmAdjAux a num den xs).getD j 0 =
      ((1-a)^(j+1) * num +
        (Finset.range (j+1)).sum fun i => (1-a)^i * xs.getD (j-i) 0) /
      ((1-a)^(j+1) * den + (Finset.range (j+1)).sum fun i => (1-a)^i) := by
  induction xs with
  | nil => intro num den j hj; simp at hj
  | cons x t ih =>
    intro num den j hj
    cases j with
    | zero =>
      simp [ewmAdjAux, Finset.sum_range_one]
    | succ j =>
      have hj2 : j < t.length := by simpa using hj
      show (ewmAdjAux a ((1-a)*num + x) ((1-a)*den + 1) t).getD j 0 = _
      rw [ih _ _ j hj2]
      have hsum : ((Finset.range (j+1)).sum fun i => (1-a)^i * (x :: t).getD (j+1-i) 0)
          = (Finset.range (j+1)).sum fun i => (1-a)^i * t.getD (j-i) 0 := by
        refine Finset.sum_congr rfl (fun i hi => ?_)
        have hij : j + 1 - i = (j - i) + 1 := by
          have := Finset.mem_range.mp hi; omega
        rw [hij, List.getD_cons_succ]
      congr 1
      · conv_rhs => rw [Finset.sum_range_succ]
        rw [hsum, Nat.sub_self, List.getD_cons_zero]
        ring
      · conv_rhs => rw [Finset.sum_range_succ]
        ring

lemma ewmAdj_getD (span : ℕ) (xs : List ℚ) (t : ℕ) (ht : t < xs.length) :
    (ewmAdj span xs).getD t 0 = ewmWeighted span xs t := by
  unfold ewmAdj ewmWeighted
  rw [ewmAdjAux_getD _ _ _ _ _ ht]
  simp

lemma getD_zipWith_sub (as bs : List ℚ) (t : ℕ) (ha : t < as.length)
    (hb : t < bs.length) :
    (as.zipWith (· - ·) bs).getD t 0 = as.getD t 0 - bs.getD t 0 := by
  rw [List.getD_eq_getElem _ _ (by simp [List.length_zipWith]; omega),
      List.getElem_zipWith, List.getD_eq_getElem _ _ ha, List.getD_eq_getElem _ _ hb]

lemma length_macd_line (c : List ℚ) : (macd_line c).length = c.length := by
  simp [macd_line, List.length_zipWith, length_ewmAdj]

lemma length_signal_line (c : List ℚ) : (signal_line c).length = c.length := by
  simp [signal_line, length_ewmAdj, length_macd_line]

/-! ### Claims -/

/-- C1: for every BarSeries of length ≥ 30 accepted by the guards,
`trend_analysis` returns a success record whose `trend_strength_score` lies
in [0,100] and whose verdict/confidence pair is the one given by the
threshold chain `verdictOf` (evaluated high-to-low, first match wins; being
a function, `verdictOf` maps no score to two different verdicts). -/
theorem C1_verdict_threshold_table (sq : ℚ → ℚ) (symbol period : String)
    (bars : List Bar) (h : 30 ≤ bars.length) :
    ∃ v : TrendVerdict, analyzeBars sq symbol period bars = .ok v ∧
      0 ≤ v.trend_strength_score ∧ v.trend_strength_score ≤ 100 ∧
      (v.trend_verdict, v.confidence) = verdictOf v.trend_strength_score := by
  refine ⟨mkVerdict sq symbol period bars, ?_, ?_, ?_, rfl⟩
  · unfold analyzeBars
    rw [if_neg (by omega)]
  · rw [mkVerdict_trend_strength_score, score]
    exact le_max_left _ _
  · rw [mkVerdict_trend_strength_score, score]
    exact max_le (by norm_num) (min_le_left _ _)

theorem C1_verdict_threshold_table_witness :
    30 ≤ constBars.length ∧
    (∃ v : TrendVerdict, analyzeBars (fun _ => 0) "A" "7d" constBars = .ok v ∧
      0 ≤ v.trend_strength_score ∧ v.trend_strength_score ≤ 100 ∧
      (v.trend_verdict, v.confidence) = verdictOf v.trend_strength_score) :=
  ⟨by decide, C1_verdict_threshold_table (fun _ => 0) "A" "7d" constBars (by decide)⟩

/-- C2: the composite score equals a base of 50 plus independently evaluated,
summed deltas (+15/−15 for percent change beyond ±3, ±15 for the EMA trend,
±15 for the MACD signal, +10/−10 for RSI beyond 55/45, ±10 for close vs
SMA20, ±8 for volume ratio vs 1.3), the sum clamped to [0,100]. -/
theorem C2_composite_score (sq : ℚ → ℚ) (symbol period : String)
    (bars : List Bar) (h : 30 ≤ bars.length) :
    ∃ v : TrendVerdict, analyzeBars sq symbol period bars = .ok v ∧
      v.trend_strength_score =
        max 0 (min 100 ((50 : ℤ)
          + (if pct_change (closes bars) > 3 then 15
             else if pct_change (closes bars) < -3 then -15 else 0)
          + (if ema_trend (closes bars) = "bullish" then 15 else -15)
          + (if macd_signal (closes bars) = "bullish" then 15 else -15)
          + (if rsi (closes bars) > 55 then 10
             else if rsi (closes bars) < 45 then -10 else 0)
          + (if lastD (closes bars) > sma20 (closes bars) then 10 else -10)
          + (if vol_ratio (volumes bars) > 13/10 then 8 else -8))) := by
  refine ⟨mkVerdict sq symbol period bars, ?_, rfl⟩
  unfold analyzeBars
  rw [if_neg (by omega)]

theorem C2_composite_score_witness :
    30 ≤ constBars.length ∧
    (∃ v : TrendVerdict, analyzeBars (fun _ => 0) "A" "7d" constBars = .ok v ∧
      v.trend_strength_score =
        max 0 (min 100 ((50 : ℤ)
          + (if pct_change (closes constBars) > 3 then 15
             else if pct_change (closes constBars) < -3 then -15 else 0)
          + (if ema_trend (closes constBars) = "bullish" then 15 else -15)
          + (if macd_signal (closes constBars) = "bullish" then 15 else -15)
          + (if rsi (closes constBars) > 55 then 10
             else if rsi (closes constBars) < 45 then -10 else 0)
          + (if lastD (closes constBars) > sma20 (closes constBars) then 10 else -10)
          + (if vol_ratio (volumes constBars) > 13/10 then 8 else -8)))) :=
  ⟨by decide, C2_composite_score (fun _ => 0) "A" "7d" constBars (by decide)⟩

/-- C7: for every bar list with fewer than 30 entries the engine returns the
low-bar-count warning record carrying the symbol and the message
"Low bar count, accuracy reduced" — a plain constructor with no score or
verdict fields, produced before any indicator computation. -/
theorem C7_low_bar_warning (sq : ℚ → ℚ) (symbol period : String)
    (bars : List Bar) (h : bars.length < 30) :
    analyzeBars sq symbol period bars =
      .lowBar symbol "Low bar count, accuracy reduced" := by
  unfold analyzeBars
  rw [if_pos h]

theorem C7_low_bar_warning_witness :
    ([] : List Bar).length < 30 ∧
    analyzeBars (fun _ => 0) "AAPL" "7d" [] =
      .lowBar "AAPL" "Low bar count, accuracy reduced" :=
  ⟨by decide, C7_low_bar_warning (fun _ => 0) "AAPL" "7d" [] (by decide)⟩

/-- C9: the engine computation is deterministic — two invocations on
byte-identical bar sequences with the same symbol and period (and the same
square-root routine) produce identical output records; the embedding is a
pure function of its input, mirroring the source, which touches no state
outside its local variables. -/
theorem C9_deterministic (sq : ℚ → ℚ) (symbol period : String)
    (b1 b2 : List Bar) (h : b1 = b2) :
    analyzeBars sq symbol period b1 = analyzeBars sq symbol period b2 := by
  rw [h]

theorem C9_deterministic_witness :
    constBars = constBars ∧
    analyzeBars (fun _ => 0) "A" "7d" constBars =
      analyzeBars (fun _ => 0) "A" "7d" constBars :=
  ⟨rfl, C9_deterministic (fun _ => 0) "A" "7d" constBars constBars rfl⟩

/-- C6 (counterexample): the config-error record returned for an invalid
period does NOT carry the symbol — the result for symbol "AAPL" is
byte-identical to the result for symbol "MSFT", and is the bare
`{"error": ...}` record of trend.py line 198. -/
theorem C6_counterexample :
    trend_analysis (fun _ => 0) emptyFetch emptyFetch emptyFetch "AAPL" "1d" =
      trend_analysis (fun _ => 0) emptyFetch emptyFetch emptyFetch "MSFT" "1d" ∧
    trend_analysis (fun _ => 0) emptyFetch emptyFetch emptyFetch "AAPL" "1d" =
      .configError "period must be \x277d\x27, \x2730d\x27, or \x27200d\x27" := by
  exact ⟨by decide, by decide⟩

/-- C6 (amended): for every period value outside {7d, 30d, 200d},
`trend_analysis` returns — without invoking any bar fetcher (the result is
the same for all fetcher oracles) and without computing any indicator — the
diagnostic record carrying only the config-error message of trend.py
line 198 (and no symbol field). -/
theorem C6_invalid_period (sq : ℚ → ℚ)
    (fetch7d fetch30d fetch200d : String → AdapterPayload)
    (symbol period : String) (h7 : period ≠ "7d") (h30 : period ≠ "30d")
    (h200 : period ≠ "200d") :
    trend_analysis sq fetch7d fetch30d fetch200d symbol period =
      .configError "period must be \x277d\x27, \x2730d\x27, or \x27200d\x27" := by
  simp [trend_analysis, h7, h30, h200, periodMsg]

theorem C6_invalid_period_witness :
    ("1d" : String) ≠ "7d" ∧ ("1d" : String) ≠ "30d" ∧ ("1d" : String) ≠ "200d" ∧
    trend_analysis (fun _ => 0) emptyFetch emptyFetch emptyFetch "AAPL" "1d" =
      .configError "period must be \x277d\x27, \x2730d\x27, or \x27200d\x27" :=
  ⟨by decide, by decide, by decide,
    C6_invalid_period (fun _ => 0) emptyFetch emptyFetch emptyFetch "AAPL" "1d"
      (by decide) (by decide) (by decide)⟩

/-- C10: if the adapter payload carries no error key but the expected
period-specific bar-list key is absent, the defaulting lookup
`data.get(key, [])` yields the empty list and `trend_analysis` returns the
low-bar-count warning record — for each of the three valid periods, never a
no-data error or a raised fault. -/
theorem C10_missing_key (sq : ℚ → ℚ)
    (fetch7d fetch30d fetch200d : String → AdapterPayload) (symbol : String)
    (e7 : (fetch7d symbol.toUpper).hasError = false)
    (n7 : (fetch7d symbol.toUpper).fields.lookup "hourly_ohlcv_last_week" = none)
    (e30 : (fetch30d symbol.toUpper).hasError = false)
    (n30 : (fetch30d symbol.toUpper).fields.lookup "hourly_ohlcv_1month" = none)
    (e200 : (fetch200d symbol.toUpper).hasError = false)
    (n200 : (fetch200d symbol.toUpper).fields.lookup "daily_ohlcv_200d" = none) :
    trend_analysis sq fetch7d fetch30d fetch200d symbol "7d" =
      .lowBar symbol.toUpper "Low bar count, accuracy reduced" ∧
    trend_analysis sq fetch7d fetch30d fetch200d symbol "30d" =
      .lowBar symbol.toUpper "Low bar count, accuracy reduced" ∧
    trend_analysis sq fetch7d fetch30d fetch200d symbol "200d" =
      .lowBar symbol.toUpper "Low bar count, accuracy reduced" := by
  refine ⟨?_, ?_, ?_⟩ <;>
    simp [trend_analysis, runFetched, analyzeBars, e7, n7, e30, n30, e200, n200]

theorem C10_missing_key_witness :
    (emptyFetch ("aapl".toUpper)).hasError = false ∧
    (emptyFetch ("aapl".toUpper)).fields.lookup "hourly_ohlcv_last_week" = none ∧
    trend_analysis (fun _ => 0) emptyFetch emptyFetch emptyFetch "aapl" "7d" =
      .lowBar ("aapl".toUpper) "Low bar count, accuracy reduced" :=
  ⟨rfl, rfl,
    (C10_missing_key (fun _ => 0) emptyFetch emptyFetch emptyFetch "aapl"
      rfl rfl rfl rfl rfl rfl).1⟩

/-- C5 (code evaluated at the failing input): for a 30-bar series whose
first close is zero, the engine returns a SUCCESS record, not a diagnostic.
In the source, `close` is a numpy float array, so
`(close[-1] - close[0]) / close[0]` with `close[0] == 0` yields `inf` with a
runtime warning instead of raising, the `except` handler at trend.py
line 325 is never reached, and the success record (with an infinite
`price_change_percent`) is serialised.  The `ℚ` embedding returns `0` for
the division; under either semantics no exception occurs and the success
constructor is produced. -/
theorem C5_zero_first_close_success :
    headD0 (closes zeroStartBars) = 0 ∧
    30 ≤ zeroStartBars.length ∧
    (analyzeBars (fun _ => 0) "TEST" "7d" zeroStartBars).isOk = true := by
  decide

/-- C8: for every accepted series (any `sqrt`, any bar list passing the
30-bar guard), the reported squeeze flag is "YES" exactly when
`bb_width < 0.08` — the biconditional holds generally, covering the series
where the flag is "NO" as well; and whenever the Bollinger upper and lower
bands coincide (e.g. a constant close window makes the rolling standard
deviation 0), `bb_position` is exactly 1/2 and the reported bucket is
"middle". -/
theorem C8_bollinger_degenerate (sq : ℚ → ℚ) (symbol period : String)
    (bars : List Bar) (h : 30 ≤ bars.length) :
    ∃ v : TrendVerdict, analyzeBars sq symbol period bars = .ok v ∧
      (upperBand sq (closes bars) = lowerBand sq (closes bars) →
        bb_position sq (closes bars) = 1/2 ∧
        v.key_signals.bollinger_position = "middle") ∧
      (v.key_signals.bb_squeeze = "YES" ↔ bb_width sq (closes bars) < 2/25) := by
  refine ⟨mkVerdict sq symbol period bars, ?_, ?_, ?_⟩
  · unfold analyzeBars
    rw [if_neg (by omega)]
  · intro hb
    have hpos : bb_position sq (closes bars) = 1/2 := by
      unfold bb_position
      rw [if_neg (not_not_intro hb)]
    refine ⟨hpos, ?_⟩
    rw [mkVerdict_bollinger_position, hpos]
    norm_num
  · rw [mkVerdict_bb_squeeze]
    unfold bb_squeeze
    by_cases hw : bb_width sq (closes bars) < 2/25
    · simp [hw]
    · simp [hw]

theorem C8_bollinger_degenerate_witness :
    30 ≤ constBars.length ∧
    upperBand (fun _ => 0) (closes constBars) = lowerBand (fun _ => 0) (closes constBars) ∧
    (∃ v : TrendVerdict, analyzeBars (fun _ => 0) "A" "7d" constBars = .ok v ∧
      (upperBand (fun _ => 0) (closes constBars) = lowerBand (fun _ => 0) (closes constBars) →
        bb_position (fun _ => 0) (closes constBars) = 1/2 ∧
        v.key_signals.bollinger_position = "middle") ∧
      (v.key_signals.bb_squeeze = "YES" ↔
        bb_width (fun _ => 0) (closes constBars) < 2/25)) :=
  ⟨by decide, by simp [upperBand, lowerBand, std20],
    C8_bollinger_degenerate (fun _ => 0) "A" "7d" constBars (by decide)⟩

set_option maxHeartbeats 2000000 in
/-- C3 (counterexample): the MACD line does NOT follow the unadjusted EMA
convention (recurrence seeded by the first value): on the rising 30-bar
series, its last value differs from EMA(12) minus EMA(26) computed by that
convention.  The source computes the MACD EMAs with `ewm(span=...)` and the
pandas default `adjust=True`, unlike the `adjust=False` EMAs of the 9/21
crossover. -/
theorem C3_counterexample :
    30 ≤ risingBars.length ∧
    lastD (macd_line (closes risingBars)) ≠
      emaNoAdjLast 12 (closes risingBars) - emaNoAdjLast 26 (closes risingBars) := by
  refine ⟨by decide, ?_⟩
  norm_num [risingBars, closes, mkBar, macd_line, ewmAdj, ewmAdjAux, ewmAlpha,
    emaNoAdjLast, lastD, List.zipWith, List.foldl, List.getLastD, List.getLast]

/-- C3 (amended): at every index, the MACD line equals EMA(12) minus EMA(26)
of the closes, the signal line equals EMA(9) of the MACD line, and the
histogram equals line minus signal — where these three EMAs follow the
pandas default bias-ADJUSTED convention (`adjust=True`): the weighted mean
with weights `(1-α)^i`, `α = 2/(span+1)` — not the seeded, unadjusted
recurrence used for the 9/21 crossover EMAs. -/
theorem C3_macd_adjusted_ema (c : List ℚ) (t : ℕ) (ht : t < c.length) :
    (macd_line c).getD t 0 = ewmWeighted 12 c t - ewmWeighted 26 c t ∧
    (signal_line c).getD t 0 = ewmWeighted 9 (macd_line c) t ∧
    (macd_hist c).getD t 0 = (macd_line c).getD t 0 - (signal_line c).getD t 0 := by
  refine ⟨?_, ?_, ?_⟩
  · unfold macd_line
    rw [getD_zipWith_sub _ _ _ (by rw [length_ewmAdj]; exact ht)
          (by rw [length_ewmAdj]; exact ht),
        ewmAdj_getD _ _ _ ht, ewmAdj_getD _ _ _ ht]
  · exact ewmAdj_getD 9 (macd_line c) t (by rw [length_macd_line]; exact ht)
  · unfold macd_hist
    exact getD_zipWith_sub _ _ _ (by rw [length_macd_line]; exact ht)
      (by rw [length_signal_line]; exact ht)

theorem C3_macd_adjusted_ema_witness :
    1 < (closes risingBars).length ∧
    ((macd_line (closes risingBars)).getD 1 0 =
        ewmWeighted 12 (closes risingBars) 1 - ewmWeighted 26 (closes risingBars) 1 ∧
      (signal_line (closes risingBars)).getD 1 0 =
        ewmWeighted 9 (macd_line (closes risingBars)) 1 ∧
      (macd_hist (closes risingBars)).getD 1 0 =
        (macd_line (closes risingBars)).getD 1 0 -
          (signal_line (closes risingBars)).getD 1 0) :=
  ⟨by decide, C3_macd_adjusted_ema (closes risingBars) 1 (by decide)⟩

/-- C4 (counterexample): the rising 30-bar series has all last-14 deltas
non-negative (indeed positive), yet the reported `rsi_14` is 99.01, not 100:
`avg_loss == 0` maps to `rs = 100`, and `100 − 100/(1+100)` rounds to
99.01. -/
theorem C4_counterexample :
    (∀ d ∈ lastN 14 (diffs (closes risingBars)), 0 ≤ d) ∧
    (∃ d ∈ lastN 14 (diffs (closes risingBars)), 0 < d) ∧
    30 ≤ risingBars.length ∧
    rsiField (analyzeBars (fun _ => 0) "TEST" "7d" risingBars) = some (9901/100) ∧
    (9901 : ℚ)/100 ≠ 100 := by
  have h0 : ∀ d ∈ lastN 14 (diffs (closes risingBars)), 0 ≤ d := by
    norm_num [risingBars, closes, mkBar, diffs, lastN, List.zipWith]
  have hok : analyzeBars (fun _ => 0) "TEST" "7d" risingBars =
      .ok (mkVerdict (fun _ => 0) "TEST" "7d" risingBars) := by
    unfold analyzeBars
    rw [if_neg (by decide)]
  refine ⟨h0, ?_, by decide, ?_, by norm_num⟩
  · norm_num [risingBars, closes, mkBar, diffs, lastN, List.zipWith]
  · rw [hok]
    show some (mkVerdict (fun _ => 0) "TEST" "7d" risingBars).key_signals.rsi_14 = _
    rw [mkVerdict_rsi_14, rsi_of_avg_loss_zero _ (avg_loss_zero _ h0)]
    norm_num [pyRound]

/-- C4 (amended): for every accepted BarSeries whose last 14 close-to-close
deltas are all non-negative with at least one strictly positive, `avg_loss`
is 0 and `avg_gain` is positive, the RSI computation raises no division
fault, and the reported `rsi_14` equals round(100 − 100/(1+100), 2) = 99.01
— not 100: the source maps `avg_loss == 0` to `rs = 100` by convention and
then applies the generic `rsi = 100 − 100/(1+rs)` branch. -/
theorem C4_all_gain_rsi (sq : ℚ → ℚ) (symbol period : String)
    (bars : List Bar) (h : 30 ≤ bars.length)
    (h0 : ∀ d ∈ lastN 14 (diffs (closes bars)), 0 ≤ d)
    (h1 : ∃ d ∈ lastN 14 (diffs (closes bars)), 0 < d) :
    avg_loss (closes bars) = 0 ∧ 0 < avg_gain (closes bars) ∧
    ∃ v : TrendVerdict, analyzeBars sq symbol period bars = .ok v ∧
      v.key_signals.rsi_14 = 9901/100 := by
  have hl := avg_loss_zero _ h0
  refine ⟨hl, avg_gain_pos _ h1, mkVerdict sq symbol period bars, ?_, ?_⟩
  · unfold analyzeBars
    rw [if_neg (by omega)]
  · rw [mkVerdict_rsi_14, rsi_of_avg_loss_zero _ hl]
    norm_num [pyRound]

theorem C4_all_gain_rsi_witness :
    30 ≤ risingBars.length ∧
    (avg_loss (closes risingBars) = 0 ∧ 0 < avg_gain (closes risingBars) ∧
    ∃ v : TrendVerdict, analyzeBars (fun _ => 0) "W" "7d" risingBars = .ok v ∧
      v.key_signals.rsi_14 = 9901/100) :=
  ⟨by decide, C4_all_gain_rsi (fun _ => 0) "W" "7d" risingBars (by decide)
    (by norm_num [risingBars, closes, mkBar, diffs, lastN, List.zipWith])
    (by norm_num [risingBars, closes, mkBar, diffs, lastN, List.zipWith])⟩

end Trend
